import Mathlib

/-!
Verification of the `TimedChallenge` component
(`src/shared/components/TimedChallenge/index.tsx`) of the kana-dojo
repository.  The component's interaction logic (event handlers, React
effects, deferred `setTimeout` callbacks, preference loading and the
accuracy formula) is shallowly embedded below; the theorems settle the
frozen claims about it.
-/

namespace TimedChallenge

/-- Score record held by the caller-supplied `stats` object.  The hook that
implements it is not part of the sources; the mutators below are
Modelled from the spec: `incrementCorrect` increments `correct` and
`streak` and updates `bestStreak = max bestStreak streak`;
`incrementWrong` increments `wrong` and resets `streak` to 0;
`reset` zeroes all four counters (spec section 3, ScoreState). -/
structure Stats where
  correct : Nat
  wrong : Nat
  streak : Nat
  bestStreak : Nat
deriving DecidableEq, Repr

/-- Modelled from the spec: the `stats.incrementCorrect` mutator of the
caller-supplied stats hook (not in the sources). -/
def Stats.incrementCorrect (s : Stats) : Stats :=
  { correct := s.correct + 1
    wrong := s.wrong
    streak := s.streak + 1
    bestStreak := max s.bestStreak (s.streak + 1) }

/-- Modelled from the spec: the `stats.incrementWrong` mutator of the
caller-supplied stats hook (not in the sources). -/
def Stats.incrementWrong (s : Stats) : Stats :=
  { correct := s.correct
    wrong := s.wrong + 1
    streak := 0
    bestStreak := s.bestStreak }

/-- Modelled from the spec: the `stats.reset` mutator of the
caller-supplied stats hook (not in the sources): zeroes every counter. -/
def Stats.resetStats : Stats :=
  { correct := 0, wrong := 0, streak := 0, bestStreak := 0 }

/-- The caller-supplied configuration bundle (`TimedChallengeConfig<T>`,
index.tsx lines 30-78).  Display-only fields (labels, render functions,
storage keys) are omitted; they never feed back into the state logic.
`generateQuestion` takes, besides the item list, an extra `Nat` index
into the stream of randomness the real generator consumes
(`generateQuestion` draws a random item on every call); each call site
advances the index by one. -/
structure Config (T : Type) where
  items : List T
  generateQuestion : List T → Nat → T
  checkAnswer : T → String → Bool → Bool
  getCorrectAnswer : T → Bool → String
  generateOptions : Option (T → List T → Nat → Bool → List String)
  getCorrectOption : Option (T → Bool → String)
  supportsReverseMode : Bool

/-- Component state: the `useState` cells of `TimedChallenge` together
with the timer collaborator's observable state (`isRunning`, `timeLeft`)
and the randomness index for question generation.  `gameMode` is a raw
string because the initializer at line 116 casts whatever string was
stored (`saved as BlitzGameMode`) without validation. -/
structure GameState (T : Type) where
  gameMode : String
  challengeDuration : Nat
  currentQuestion : Option T
  userAnswer : String
  isFinished : Bool
  lastAnswerCorrect : Option Bool
  shuffledOptions : List String
  wrongSelectedAnswers : List String
  isRunning : Bool
  timeLeft : Nat
  stats : Stats
  rngIndex : Nat
deriving DecidableEq, Repr

/-- Deferred callbacks scheduled with `setTimeout` by the handlers. -/
inductive Deferred where
  | advanceQuestion
  | clearFeedback
  | startTimer
  | focusInput
deriving DecidableEq, Repr

/-- Externally observable effects emitted by the handlers: audio cues,
the reverse-mode policy mutators, the confetti burst, and `setTimeout`
scheduling of a deferred callback. -/
inductive Effect where
  | playClick
  | playCorrect
  | playError
  | decideNextMode
  | resetReverseStreak
  | confettiBurst
  | schedule (delayMs : Nat) (d : Deferred)
deriving DecidableEq, Repr

/-- Number of occurrences of an effect in an emitted effect list. -/
def countEff (e : Effect) (l : List Effect) : Nat :=
  (l.filter (fun x => x = e)).length

/-- Models JS `String.prototype.trim` on the answer string. -/
def jsTrim (s : String) : String :=
  ⟨((s.data.dropWhile Char.isWhitespace).reverse.dropWhile Char.isWhitespace).reverse⟩

/-- Running a fired deferred callback (the `setTimeout` bodies at
index.tsx lines 263-272, 304-307, 316, 337-340).  The advance callback
draws a fresh question (`generateQuestionRef.current(items)`) and clears
the feedback flag; the clear-feedback callback only clears the flag;
`startTimer` starts the countdown; the focus callback touches the DOM
only.  None of them checks any session token: the mutation is applied
unconditionally. -/
def runDeferred (cfg : Config T) : Deferred → GameState T → GameState T
  | .advanceQuestion, s =>
      { s with
          currentQuestion := some (cfg.generateQuestion cfg.items s.rngIndex)
          rngIndex := s.rngIndex + 1
          lastAnswerCorrect := none }
  | .clearFeedback, s => { s with lastAnswerCorrect := none }
  | .startTimer, s => { s with isRunning := true }
  | .focusInput, s => s

/-- `handleStart` (index.tsx lines 253-273): resets the score, clears
transient answer state, draws an initial question, resets the timer and
schedules starting the countdown (50 ms) and the input focus (100 ms). -/
def handleStart (cfg : Config T) (s : GameState T) : GameState T × List Effect :=
  ({ s with
      stats := Stats.resetStats
      isFinished := false
      userAnswer := ""
      lastAnswerCorrect := none
      wrongSelectedAnswers := []
      currentQuestion := some (cfg.generateQuestion cfg.items s.rngIndex)
      rngIndex := s.rngIndex + 1
      isRunning := false
      timeLeft := s.challengeDuration },
   [.playClick, .schedule 50 .startTimer, .schedule 100 .focusInput])

/-- `handleCancel` (index.tsx lines 275-282): resets the timer (the
`resetTimer` operation of the timer collaborator, Modelled from the
spec: stops the countdown and restores the full duration) and clears
the transient answer state.  The `stats` object is not touched. -/
def handleCancel (s : GameState T) : GameState T × List Effect :=
  ({ s with
      isRunning := false
      timeLeft := s.challengeDuration
      isFinished := false
      userAnswer := ""
      lastAnswerCorrect := none
      wrongSelectedAnswers := [] },
   [.playClick])

/-- `handleSubmit` (index.tsx lines 285-319): Type-mode submission.
Inert when there is no question or the trimmed answer is empty;
otherwise judges the trimmed answer with the caller-supplied
`checkAnswer`, updates the stats, signals the reverse-mode policy when
supported, schedules the 300 ms advance (correct) or the 800 ms
feedback clear (incorrect) and clears the input. -/
def handleSubmit (cfg : Config T) (isReverseActive : Bool) (s : GameState T) :
    GameState T × List Effect :=
  match s.currentQuestion with
  | none => (s, [])
  | some q =>
    if jsTrim s.userAnswer = "" then (s, [])
    else if cfg.checkAnswer q (jsTrim s.userAnswer) isReverseActive then
      ({ s with
          stats := s.stats.incrementCorrect
          lastAnswerCorrect := some true
          userAnswer := "" },
       [.playClick, .playCorrect]
         ++ (if cfg.supportsReverseMode then [.decideNextMode] else [])
         ++ [.schedule 300 .advanceQuestion])
    else
      ({ s with
          stats := s.stats.incrementWrong
          lastAnswerCorrect := some false
          userAnswer := "" },
       [.playClick, .playError]
         ++ (if cfg.supportsReverseMode then [.resetReverseStreak] else [])
         ++ [.schedule 800 .clearFeedback])

/-- `handleOptionClick` (index.tsx lines 322-354): Pick-mode click.
Inert without a question or without `getCorrectOption`; correctness is
the string equality `selectedOption === correctOption`.  A correct
click clears the rejected set, signals the policy and schedules the
300 ms advance; a wrong click records the option as rejected and keeps
the question. -/
def handleOptionClick (cfg : Config T) (isReverseActive : Bool)
    (selectedOption : String) (s : GameState T) : GameState T × List Effect :=
  match s.currentQuestion, cfg.getCorrectOption with
  | some q, some gco =>
    if selectedOption = gco q isReverseActive then
      ({ s with
          stats := s.stats.incrementCorrect
          lastAnswerCorrect := some true
          wrongSelectedAnswers := [] },
       [.playCorrect]
         ++ (if cfg.supportsReverseMode then [.decideNextMode] else [])
         ++ [.schedule 300 .advanceQuestion])
    else
      ({ s with
          stats := s.stats.incrementWrong
          wrongSelectedAnswers := s.wrongSelectedAnswers ++ [selectedOption]
          lastAnswerCorrect := some false },
       [.playError]
         ++ (if cfg.supportsReverseMode then [.resetReverseStreak] else []))
  | _, _ => (s, [])

/-- The time-expiry effect (index.tsx lines 217-222): when `timeLeft`
is 0 and the game is not already finished, set `isFinished` and fire
the confetti burst; otherwise do nothing. -/
def timeExpiryStep (s : GameState T) : GameState T × List Effect :=
  if s.timeLeft = 0 ∧ s.isFinished = false then
    ({ s with isFinished := true }, [.confettiBurst])
  else (s, [])

/-- Repeated zero-time notifications: run the time-expiry effect `n`
times on the state and count the confetti bursts fired in total. -/
def zeroTicks : Nat → GameState T → GameState T × Nat
  | 0, s => (s, 0)
  | n + 1, s =>
      let r := timeExpiryStep s
      let r2 := zeroTicks n r.1
      (r2.1, countEff .confettiBurst r.2 + r2.2)

/-! Persisted-preference loading (index.tsx lines 116-122 and 135-141). -/

/-- Leading decimal digits of a character list. -/
def leadingDigits : List Char → List Char
  | c :: cs => if c.isDigit then c :: leadingDigits cs else []
  | [] => []

/-- Numeric value of a list of decimal digits. -/
def digitsVal (cs : List Char) : Nat :=
  cs.foldl (fun acc c => acc * 10 + (c.toNat - 48)) 0

/-- Models JS `parseInt(s)` in the default radix on inputs without a
hex prefix: skip leading whitespace, read an optional sign and the
longest run of decimal digits; `none` stands for `NaN` (no digits). -/
def jsParseInt (s : String) : Option Int :=
  let cs := s.data.dropWhile Char.isWhitespace
  let signRest : Int × List Char :=
    match cs with
    | '-' :: r => (-1, r)
    | '+' :: r => (1, r)
    | r => (1, r)
  let ds := leadingDigits signRest.2
  if ds = [] then none else some (signRest.1 * (digitsVal ds : Int))

/-- The `gameMode` initializer (index.tsx lines 116-122):
`(saved as BlitzGameMode) || 'Pick'`.  `none` is an absent key; the
only falsy string is the empty one, any other stored string is cast
and used verbatim. -/
def loadGameMode (saved : Option String) : String :=
  match saved with
  | none => "Pick"
  | some s => if s = "" then "Pick" else s

/-- The `challengeDuration` initializer (index.tsx lines 135-141):
`saved ? parseInt(saved) : 60`.  `none` in the result stands for the
`NaN` produced by `parseInt` on a non-numeric stored string. -/
def loadDuration (saved : Option String) : Option Int :=
  match saved with
  | none => some 60
  | some s => if s = "" then some 60 else jsParseInt s

/-! The shuffled-options React effect (index.tsx lines 201-215). -/

/-- The dependency triple `[currentQuestion, gameMode, isReverseActive]`
of the shuffled-options effect. -/
def optionsDeps (isReverseActive : Bool) (s : GameState T) :
    Option T × String × Bool :=
  (s.currentQuestion, s.gameMode, isReverseActive)

/-- Body of the shuffled-options effect: when a question is present,
the mode is Pick and `generateOptions` is supplied, generate the
options, shuffle them (the `Math.random` comparator sort is modelled by
the permutation oracle `shuffle`) and clear the rejected set.  The
returned flag records whether the option set was regenerated. -/
def optionsEffectBody (shuffle : List String → List String) (cfg : Config T)
    (isReverseActive : Bool) (s : GameState T) : GameState T × Bool :=
  match s.currentQuestion, cfg.generateOptions with
  | some q, some gen =>
      if s.gameMode = "Pick" then
        ({ s with
            shuffledOptions := shuffle (gen q cfg.items 3 isReverseActive)
            wrongSelectedAnswers := [] }, true)
      else (s, false)
  | _, _ => (s, false)

/-- One commit of the shuffled-options effect under React semantics:
the body runs exactly when the dependency triple differs from the one
of the previous commit. -/
def optionsEffectStep [DecidableEq T] (shuffle : List String → List String)
    (cfg : Config T) (isReverseActive : Bool)
    (prev : Option T × String × Bool) (s : GameState T) : GameState T × Bool :=
  if optionsDeps isReverseActive s ≠ prev then
    optionsEffectBody shuffle cfg isReverseActive s
  else (s, false)

/-! Accuracy (index.tsx lines 356-358). -/

/-- Models JS `Math.round` on a non-negative rational. -/
def jsRound (q : ℚ) : ℤ := ⌊q + 1 / 2⌋

/-- `accuracy` (index.tsx lines 356-358):
`totalAnswers > 0 ? Math.round((correct / totalAnswers) * 100) : 0`. -/
def accuracy (correct wrong : Nat) : ℤ :=
  if 0 < correct + wrong then
    jsRound ((correct : ℚ) / ((correct : ℚ) + (wrong : ℚ)) * 100)
  else 0

/-! The rendered view and guarded event dispatch.  The render function
(index.tsx lines 361-1056) picks, in order: the empty-pool display,
the pre-game interstitial, the results modal, or the active game; each
interactive element exists only in its view, so an event reaches its
handler only when the corresponding view is rendered. -/

/-- The four mutually exclusive rendered views. -/
inductive View where
  | emptyPool
  | preGame
  | finished
  | active
deriving DecidableEq, Repr

/-- Render dispatch (index.tsx lines 361, 393, 636, 819): empty pool
first, then pre-game when neither running nor finished, then the
results modal when finished, else the active game. -/
def view (cfg : Config T) (s : GameState T) : View :=
  if cfg.items.isEmpty then .emptyPool
  else if s.isRunning = false ∧ s.isFinished = false then .preGame
  else if s.isFinished then .finished
  else .active

/-- User and timer events the component can receive. -/
inductive Event where
  | clickStart
  | clickCancel
  | clickOption (o : String)
  | submitAnswer
  | setAnswer (a : String)
  | chooseMode (m : String)
  | chooseDuration (d : Nat)
  | timerTick
  | fireTimeout (i : Nat)
deriving DecidableEq, Repr

/-- Component state together with the queue of pending `setTimeout`
callbacks. -/
structure Sys (T : Type) where
  state : GameState T
  pending : List Deferred

/-- Deferred callbacks scheduled by an effect list. -/
def scheduledOf (effs : List Effect) : List Deferred :=
  effs.filterMap fun e =>
    match e with
    | .schedule _ d => some d
    | _ => none

/-- Apply a handler result to the system: install the new state and
enqueue the deferred callbacks it scheduled. -/
def applyHandler (sys : Sys T) (r : GameState T × List Effect) :
    Sys T × List Effect :=
  (⟨r.1, sys.pending ++ scheduledOf r.2⟩, r.2)

/-- Guarded dispatch of one event.  Each click event is guarded by the
view that renders its element (the Start button exists in the pre-game
and finished views, Cancel and the answer inputs only in the active
view); timer ticks need a running timer; `fireTimeout i` fires the
`i`-th pending deferred callback unconditionally — timeouts are never
cancelled. -/
def dispatch (cfg : Config T) (rev : Bool) (ev : Event) (sys : Sys T) :
    Sys T × List Effect :=
  match ev with
  | .clickStart =>
      if view cfg sys.state = View.preGame ∨ view cfg sys.state = View.finished then
        applyHandler sys (handleStart cfg sys.state)
      else (sys, [])
  | .clickCancel =>
      if view cfg sys.state = View.active then
        applyHandler sys (handleCancel sys.state)
      else (sys, [])
  | .clickOption o =>
      if view cfg sys.state = View.active ∧ sys.state.gameMode = "Pick"
          ∧ o ∈ sys.state.shuffledOptions
          ∧ o ∉ sys.state.wrongSelectedAnswers then
        applyHandler sys (handleOptionClick cfg rev o sys.state)
      else (sys, [])
  | .submitAnswer =>
      if view cfg sys.state = View.active ∧ sys.state.gameMode = "Type" then
        applyHandler sys (handleSubmit cfg rev sys.state)
      else (sys, [])
  | .setAnswer a =>
      if view cfg sys.state = View.active ∧ sys.state.gameMode = "Type" then
        (⟨{ sys.state with userAnswer := a }, sys.pending⟩, [])
      else (sys, [])
  | .chooseMode m =>
      if view cfg sys.state = View.preGame then
        (⟨{ sys.state with gameMode := m }, sys.pending⟩, [])
      else (sys, [])
  | .chooseDuration d =>
      if view cfg sys.state = View.preGame then
        (⟨{ sys.state with challengeDuration := d }, sys.pending⟩, [])
      else (sys, [])
  | .timerTick =>
      if sys.state.isRunning = true ∧ 0 < sys.state.timeLeft then
        (⟨{ sys.state with timeLeft := sys.state.timeLeft - 1 }, sys.pending⟩, [])
      else (sys, [])
  | .fireTimeout i =>
      match sys.pending[i]? with
      | some d => (⟨runDeferred cfg d sys.state, sys.pending.eraseIdx i⟩, [])
      | none => (sys, [])

/-- One full step: dispatch the event, then run the time-expiry React
effect on the resulting state. -/
def step (cfg : Config T) (rev : Bool) (ev : Event) (sys : Sys T) :
    Sys T × List Effect :=
  let r := dispatch cfg rev ev sys
  let r2 := timeExpiryStep r.1.state
  (⟨r2.1, r.1.pending⟩, r.2 ++ r2.2)

/-- Run a list of events through `step`. -/
def runEvents (cfg : Config T) (rev : Bool) : List Event → Sys T → Sys T
  | [], sys => sys
  | ev :: evs, sys => runEvents cfg rev evs (step cfg rev ev sys).1

/-- A sequence of Pick-mode clicks, collecting all emitted effects. -/
def runClicks (cfg : Config T) (rev : Bool) :
    List String → GameState T → GameState T × List Effect
  | [], s => (s, [])
  | o :: os, s =>
      let r := handleOptionClick cfg rev o s
      let r2 := runClicks cfg rev os r.1
      (r2.1, r.2 ++ r2.2)

/-! Concrete fixtures used by witnesses and counterexamples. -/

/-- A concrete string-item configuration: the correct option for a
question is the question itself, reverse mode is supported. -/
def strCfg : Config String :=
  { items := ["a", "b"]
    generateQuestion := fun _ _ => "a"
    checkAnswer := fun q a _ => q = a
    getCorrectAnswer := fun q _ => q
    generateOptions := some (fun q _ _ _ => [q, "b", "c"])
    getCorrectOption := some (fun q _ => q)
    supportsReverseMode := true }

/-- A concrete mid-session state for `strCfg`: running, question "a". -/
def strState : GameState String :=
  { gameMode := "Pick"
    challengeDuration := 60
    currentQuestion := some "a"
    userAnswer := ""
    isFinished := false
    lastAnswerCorrect := none
    shuffledOptions := ["a", "b", "c"]
    wrongSelectedAnswers := []
    isRunning := true
    timeLeft := 30
    stats := { correct := 0, wrong := 0, streak := 0, bestStreak := 0 }
    rngIndex := 0 }

/-- A concrete Nat-item configuration whose question generator returns
the current randomness index, so that distinct draws are observably
distinct (as they are with the real random generator). -/
def rngCfg : Config Nat :=
  { items := [10, 20]
    generateQuestion := fun _ n => n
    checkAnswer := fun _ _ _ => false
    getCorrectAnswer := fun _ _ => "ok"
    generateOptions := some (fun _ _ _ _ => ["ok"])
    getCorrectOption := some (fun _ _ => "ok")
    supportsReverseMode := false }

/-- A running session for `rngCfg` with question 99. -/
def rngState : GameState Nat :=
  { gameMode := "Pick"
    challengeDuration := 60
    currentQuestion := some 99
    userAnswer := ""
    isFinished := false
    lastAnswerCorrect := none
    shuffledOptions := ["ok"]
    wrongSelectedAnswers := []
    isRunning := true
    timeLeft := 30
    stats := { correct := 0, wrong := 0, streak := 0, bestStreak := 0 }
    rngIndex := 0 }

/-- A configuration with an empty item pool. -/
def emptyCfg : Config Nat :=
  { items := []
    generateQuestion := fun _ n => n
    checkAnswer := fun _ _ _ => false
    getCorrectAnswer := fun _ _ => "ok"
    generateOptions := none
    getCorrectOption := none
    supportsReverseMode := false }

/-- The initial system for `emptyCfg`: mounted, nothing running,
no pending timeouts, no question drawn (the mount effect at index.tsx
line 190 draws only for a non-empty pool). -/
def emptySys : Sys Nat :=
  { state :=
      { gameMode := "Pick"
        challengeDuration := 60
        currentQuestion := none
        userAnswer := ""
        isFinished := false
        lastAnswerCorrect := none
        shuffledOptions := []
        wrongSelectedAnswers := []
        isRunning := false
        timeLeft := 60
        stats := { correct := 0, wrong := 0, streak := 0, bestStreak := 0 }
        rngIndex := 0 }
    pending := [] }

/-! Theorems. -/

/-- On a finished state, further zero-time notifications change nothing
and fire no effect. -/
theorem zeroTicks_finished (s : GameState T) (hf : s.isFinished = true) :
    ∀ n, zeroTicks n s = (s, 0) := by
  intro n
  induction n with
  | zero => rfl
  | succ n ih => simp [zeroTicks, timeExpiryStep, hf, ih, countEff]

/-- C7: for every score state, accuracy equals
round(correct / (correct + wrong) * 100) when correct + wrong > 0 and
equals 0 when no answer has been given; in particular correct = 7,
wrong = 3 gives accuracy = 70. -/
theorem C7_accuracy_formula (c w : Nat) :
    (0 < c + w → accuracy c w = jsRound ((c : ℚ) / ((c : ℚ) + (w : ℚ)) * 100)) ∧
    accuracy 0 0 = 0 ∧ accuracy 7 3 = 70 := by
  refine ⟨fun h => by simp [accuracy, h], by simp [accuracy], ?_⟩
  have h70 : ((7 : ℚ) / ((7 : ℚ) + (3 : ℚ)) * 100) = 70 := by norm_num
  simp [accuracy, jsRound, h70]
  norm_num [Int.floor_eq_iff]

/-- C7 witness: the general formula instantiated at correct = 7,
wrong = 3. -/
theorem C7_accuracy_formula_witness :
    accuracy 7 3 = jsRound ((7 : ℚ) / ((7 : ℚ) + (3 : ℚ)) * 100) :=
  (C7_accuracy_formula 7 3).1 (by norm_num)

/-- C9: cancel() stops the countdown and clears the transient answer
state but leaves the whole score record (correct, wrong, streak,
bestStreak) untouched; the score is zeroed by start(). -/
theorem C9_cancel_no_score_mutation (cfg : Config T) (s : GameState T) :
    (handleCancel s).1.stats = s.stats ∧
    (handleCancel s).1.isRunning = false ∧
    (handleCancel s).1.userAnswer = "" ∧
    (handleCancel s).1.lastAnswerCorrect = none ∧
    (handleCancel s).1.wrongSelectedAnswers = [] ∧
    (handleStart cfg s).1.stats = ⟨0, 0, 0, 0⟩ :=
  ⟨rfl, rfl, rfl, rfl, rfl, rfl⟩

/-- C4: from a running state that has just reached zero remaining time
and is not yet finished, any positive number of zero-time notifications
sets `isFinished` and fires the confetti burst exactly once in total,
and a further notification on the finished state is a no-op. -/
theorem C4_finish_exactly_once (s : GameState T)
    (h0 : s.timeLeft = 0) (hf : s.isFinished = false) (n : Nat) :
    (zeroTicks (n + 1) s).1.isFinished = true ∧
    (zeroTicks (n + 1) s).2 = 1 ∧
    timeExpiryStep (zeroTicks (n + 1) s).1 = ((zeroTicks (n + 1) s).1, []) := by
  have hstep : timeExpiryStep s = ({ s with isFinished := true }, [.confettiBurst]) := by
    simp [timeExpiryStep, h0, hf]
  have hrest := zeroTicks_finished (T := T) { s with isFinished := true } rfl n
  have key : zeroTicks (n + 1) s = ({ s with isFinished := true }, 1) := by
    simp [zeroTicks, hstep, hrest, countEff]
  rw [key]
  refine ⟨rfl, rfl, ?_⟩
  simp [timeExpiryStep]

/-- C4 witness: a concrete running session at zero time, hit by four
zero-time notifications, finishes with a single confetti burst. -/
theorem C4_finish_exactly_once_witness :
    (zeroTicks 4 { rngState with timeLeft := 0 }).1.isFinished = true ∧
    (zeroTicks 4 { rngState with timeLeft := 0 }).2 = 1 ∧
    timeExpiryStep (zeroTicks 4 { rngState with timeLeft := 0 }).1 =
      ((zeroTicks 4 { rngState with timeLeft := 0 }).1, []) :=
  C4_finish_exactly_once { rngState with timeLeft := 0 } rfl rfl 3

/-- C2 counterexample: the stored mode string "Banana" is neither
absent nor 'Pick' nor 'Type', yet the initializer returns it verbatim
instead of the default 'Pick'; the stored duration string "abc" yields
NaN (modelled as `none`) instead of the default 60. -/
theorem C2_counterexample :
    loadGameMode (some "Banana") = "Banana" ∧
    loadGameMode (some "Banana") ≠ "Pick" ∧
    loadGameMode (some "Banana") ≠ "Type" ∧
    loadDuration (some "abc") = none ∧
    loadDuration (some "abc") ≠ some 60 := by
  refine ⟨by decide, by decide, by decide, by decide, by decide⟩

/-- C2 amended: only an absent or empty stored value falls back to the
default (mode 'Pick', duration 60); any non-empty stored mode string is
used verbatim even when it is neither 'Pick' nor 'Type', and a
non-empty stored duration string is handed to parseInt unvalidated, so
a non-numeric one yields NaN rather than 60. -/
theorem C2_amended_defaults :
    loadGameMode none = "Pick" ∧
    loadGameMode (some "") = "Pick" ∧
    (∀ s : String, s ≠ "" → loadGameMode (some s) = s) ∧
    loadDuration none = some 60 ∧
    loadDuration (some "") = some 60 ∧
    (∀ s : String, s ≠ "" → loadDuration (some s) = jsParseInt s) ∧
    jsParseInt "abc" = none ∧
    jsParseInt "45" = some 45 := by
  refine ⟨rfl, by decide, fun s hs => ?_, rfl, by decide, fun s hs => ?_,
    by decide, by decide⟩
  · simp [loadGameMode, hs]
  · simp [loadDuration, hs]

/-- C2 amended witness: the amended behaviour evaluated on the stored
strings "Banana" and "45". -/
theorem C2_amended_defaults_witness :
    loadGameMode (some "Banana") = "Banana" ∧
    loadDuration (some "45") = jsParseInt "45" :=
  ⟨C2_amended_defaults.2.2.1 "Banana" (by decide),
   C2_amended_defaults.2.2.2.2.2.1 "45" (by decide)⟩

/-- C1 counterexample: in a Pick session a correct click schedules the
300 ms advance callback; the session is then restarted (handleStart)
and draws a fresh question, and when the stale callback fires afterwards
it is not a no-op — it replaces the newer session's question. -/
theorem C1_counterexample :
    Effect.schedule 300 Deferred.advanceQuestion ∈
      (handleOptionClick rngCfg false "ok" rngState).2 ∧
    (runDeferred rngCfg Deferred.advanceQuestion
        (handleStart rngCfg (handleOptionClick rngCfg false "ok" rngState).1).1).currentQuestion
      ≠ ((handleStart rngCfg (handleOptionClick rngCfg false "ok" rngState).1).1).currentQuestion := by
  decide

/-- C1 amended: deferred callbacks are never invalidated and apply
their mutation unconditionally when they fire.  The 800 ms
clear-feedback callback happens to be a no-op on the state produced by
cancel() or restart() (both already clear the feedback flag), but the
300 ms advance callback always replaces `currentQuestion` with a
freshly drawn question (clearing the feedback flag, leaving score,
running flag and remaining time untouched) — including after a
cancel() or restart(). -/
theorem C1_amended_stale_callbacks (cfg : Config T) (s : GameState T) :
    runDeferred cfg Deferred.clearFeedback (handleCancel s).1 = (handleCancel s).1 ∧
    runDeferred cfg Deferred.clearFeedback (handleStart cfg s).1 = (handleStart cfg s).1 ∧
    (runDeferred cfg Deferred.advanceQuestion s).currentQuestion
      = some (cfg.generateQuestion cfg.items s.rngIndex) ∧
    (runDeferred cfg Deferred.advanceQuestion s).lastAnswerCorrect = none ∧
    (runDeferred cfg Deferred.advanceQuestion s).stats = s.stats ∧
    (runDeferred cfg Deferred.advanceQuestion s).isRunning = s.isRunning ∧
    (runDeferred cfg Deferred.advanceQuestion s).timeLeft = s.timeLeft :=
  ⟨rfl, rfl, rfl, rfl, rfl, rfl, rfl⟩

/-- C5: in Pick mode an incorrect click leaves `currentQuestion`
unchanged, records the option as rejected and schedules nothing, while
a correct click schedules the 300 ms advance whose firing replaces
`currentQuestion` with the freshly generated question. -/
theorem C5_pick_question_replacement (cfg : Config T) (rev : Bool) (o : String)
    (s : GameState T) (q : T) (gco : T → Bool → String)
    (hq : s.currentQuestion = some q) (hg : cfg.getCorrectOption = some gco) :
    (o ≠ gco q rev →
      (handleOptionClick cfg rev o s).1.currentQuestion = s.currentQuestion ∧
      (handleOptionClick cfg rev o s).1.wrongSelectedAnswers
        = s.wrongSelectedAnswers ++ [o] ∧
      ∀ n d, Effect.schedule n d ∉ (handleOptionClick cfg rev o s).2) ∧
    (o = gco q rev →
      Effect.schedule 300 Deferred.advanceQuestion ∈ (handleOptionClick cfg rev o s).2 ∧
      (runDeferred cfg Deferred.advanceQuestion
          (handleOptionClick cfg rev o s).1).currentQuestion
        = some (cfg.generateQuestion cfg.items s.rngIndex)) := by
  constructor
  · intro hne
    cases hsup : cfg.supportsReverseMode <;>
      simp [handleOptionClick, hq, hg, hne, hsup]
  · intro heq
    cases hsup : cfg.supportsReverseMode <;>
      simp [handleOptionClick, hq, hg, heq, hsup, runDeferred]

/-- C5 witness: on the concrete session `strState` (question "a"), the
wrong click "b" keeps the question and the correct click "a" schedules
the advance callback. -/
theorem C5_pick_question_replacement_witness :
    (handleOptionClick strCfg false "b" strState).1.currentQuestion
      = strState.currentQuestion ∧
    Effect.schedule 300 Deferred.advanceQuestion ∈
      (handleOptionClick strCfg false "a" strState).2 :=
  ⟨((C5_pick_question_replacement strCfg false "b" strState "a" (fun q _ => q)
      rfl rfl).1 (by decide)).1,
   ((C5_pick_question_replacement strCfg false "a" strState "a" (fun q _ => q)
      rfl rfl).2 rfl).1⟩

/-- C10: Pick-mode correctness is decided solely by string equality
with `getCorrectOption`; `handleOptionClick` is entirely independent of
the caller-supplied `checkAnswer`, while Type-mode `handleSubmit` does
consult it (two configurations differing only in `checkAnswer` submit
the same answer with different results). -/
theorem C10_pick_ignores_checkAnswer (cfg : Config T)
    (f : T → String → Bool → Bool) (rev : Bool) (o : String) (s : GameState T)
    (q : T) (gco : T → Bool → String)
    (hq : s.currentQuestion = some q) (hg : cfg.getCorrectOption = some gco) :
    handleOptionClick { cfg with checkAnswer := f } rev o s
      = handleOptionClick cfg rev o s ∧
    (o = gco q rev →
      (handleOptionClick cfg rev o s).1.stats.correct = s.stats.correct + 1) ∧
    (o ≠ gco q rev →
      (handleOptionClick cfg rev o s).1.stats.wrong = s.stats.wrong + 1) ∧
    handleSubmit { strCfg with checkAnswer := fun _ _ _ => true } false
        { strState with gameMode := "Type", userAnswer := "z" }
      ≠ handleSubmit { strCfg with checkAnswer := fun _ _ _ => false } false
        { strState with gameMode := "Type", userAnswer := "z" } := by
  refine ⟨rfl, fun heq => ?_, fun hne => ?_, by decide⟩
  · simp [handleOptionClick, hq, hg, heq, Stats.incrementCorrect]
  · simp [handleOptionClick, hq, hg, hne, Stats.incrementWrong]

/-- C10 witness: with the concrete configuration `strCfg`, replacing
`checkAnswer` does not change the Pick-mode click result, and the
correct click increments the correct counter. -/
theorem C10_pick_ignores_checkAnswer_witness :
    handleOptionClick { strCfg with checkAnswer := fun _ _ _ => false } false "a" strState
      = handleOptionClick strCfg false "a" strState ∧
    (handleOptionClick strCfg false "a" strState).1.stats.correct
      = strState.stats.correct + 1 :=
  ⟨(C10_pick_ignores_checkAnswer strCfg (fun _ _ _ => false) false "a" strState
      "a" (fun q _ => q) rfl rfl).1,
   (C10_pick_ignores_checkAnswer strCfg (fun _ _ _ => false) false "a" strState
      "a" (fun q _ => q) rfl rfl).2.1 rfl⟩

/-- C3 counterexample: a commit whose previous dependency snapshot was
(question "a", mode 'Type') and whose state still shows question "a"
but mode 'Pick' — the question did not change, yet the effect re-runs
and regenerates the shuffled options. -/
theorem C3_counterexample :
    (optionsEffectStep id strCfg false (some "a", "Type", false) strState).2 = true ∧
    strState.currentQuestion = some "a" := by
  exact ⟨by decide, rfl⟩

/-- C3 amended: the shuffled option set is regenerated exactly when the
effect's dependency triple (currentQuestion, gameMode, isReverseActive)
differs from the previous commit and the mode is Pick — so exactly once
per new question, but also on a mode or reverse-flag change that leaves
the question unchanged.  Whenever it is regenerated the rejected-options
set is cleared, and a commit with an unchanged triple changes nothing. -/
theorem C3_amended_regeneration [DecidableEq T]
    (shuffle : List String → List String) (cfg : Config T) (rev : Bool)
    (prev : Option T × String × Bool) (s : GameState T) (q : T)
    (gen : T → List T → Nat → Bool → List String)
    (hq : s.currentQuestion = some q) (hg : cfg.generateOptions = some gen) :
    ((optionsEffectStep shuffle cfg rev prev s).2 = true ↔
      (optionsDeps rev s ≠ prev ∧ s.gameMode = "Pick")) ∧
    ((optionsEffectStep shuffle cfg rev prev s).2 = true →
      (optionsEffectStep shuffle cfg rev prev s).1.shuffledOptions
        = shuffle (gen q cfg.items 3 rev) ∧
      (optionsEffectStep shuffle cfg rev prev s).1.wrongSelectedAnswers = []) ∧
    (optionsDeps rev s = prev →
      optionsEffectStep shuffle cfg rev prev s = (s, false)) := by
  by_cases hdep : optionsDeps rev s = prev
  · simp [optionsEffectStep, hdep]
  · by_cases hmode : s.gameMode = "Pick" <;>
      simp [optionsEffectStep, optionsEffectBody, hq, hg, hdep, hmode]

/-- C3 amended witness: on the concrete session, a question change
regenerates and clears the rejected set, and an unchanged dependency
triple is a no-op. -/
theorem C3_amended_regeneration_witness :
    (optionsEffectStep id strCfg false (some "b", "Pick", false)
        strState).1.wrongSelectedAnswers = [] ∧
    optionsEffectStep id strCfg false (optionsDeps false strState) strState
      = (strState, false) :=
  ⟨((C3_amended_regeneration id strCfg false (some "b", "Pick", false) strState
      "a" (fun q _ _ _ => [q, "b", "c"]) rfl rfl).2.1 (by decide)).2,
   (C3_amended_regeneration id strCfg false (optionsDeps false strState) strState
      "a" (fun q _ _ _ => [q, "b", "c"]) rfl rfl).2.2 rfl⟩

/-- C6: a correct answer (either mode) emits exactly one
`decideNextMode` call and no `resetReverseStreak`; an incorrect answer
emits exactly one `resetReverseStreak` and no `decideNextMode`; without
reverse-mode support neither is ever emitted.  On the concrete session,
4 consecutive correct clicks emit `decideNextMode` exactly 4 times and
never `resetReverseStreak`, and one subsequent wrong click emits
`resetReverseStreak` exactly once. -/
theorem C6_reverse_policy_calls (cfg : Config T) (rev : Bool) (o : String)
    (s : GameState T) (q : T) (gco : T → Bool → String)
    (hq : s.currentQuestion = some q) (hg : cfg.getCorrectOption = some gco) :
    (cfg.supportsReverseMode = true → o = gco q rev →
      countEff .decideNextMode (handleOptionClick cfg rev o s).2 = 1 ∧
      countEff .resetReverseStreak (handleOptionClick cfg rev o s).2 = 0) ∧
    (cfg.supportsReverseMode = true → o ≠ gco q rev →
      countEff .decideNextMode (handleOptionClick cfg rev o s).2 = 0 ∧
      countEff .resetReverseStreak (handleOptionClick cfg rev o s).2 = 1) ∧
    (cfg.supportsReverseMode = true → jsTrim s.userAnswer ≠ "" →
      cfg.checkAnswer q (jsTrim s.userAnswer) rev = true →
      countEff .decideNextMode (handleSubmit cfg rev s).2 = 1 ∧
      countEff .resetReverseStreak (handleSubmit cfg rev s).2 = 0) ∧
    (cfg.supportsReverseMode = true → jsTrim s.userAnswer ≠ "" →
      cfg.checkAnswer q (jsTrim s.userAnswer) rev = false →
      countEff .decideNextMode (handleSubmit cfg rev s).2 = 0 ∧
      countEff .resetReverseStreak (handleSubmit cfg rev s).2 = 1) ∧
    (cfg.supportsReverseMode = false →
      countEff .decideNextMode (handleOptionClick cfg rev o s).2 = 0 ∧
      countEff .resetReverseStreak (handleOptionClick cfg rev o s).2 = 0 ∧
      countEff .decideNextMode (handleSubmit cfg rev s).2 = 0 ∧
      countEff .resetReverseStreak (handleSubmit cfg rev s).2 = 0) ∧
    countEff .decideNextMode
      (runClicks strCfg false ["a", "a", "a", "a"] strState).2 = 4 ∧
    countEff .resetReverseStreak
      (runClicks strCfg false ["a", "a", "a", "a"] strState).2 = 0 ∧
    countEff .resetReverseStreak
      (handleOptionClick strCfg false "b"
        (runClicks strCfg false ["a", "a", "a", "a"] strState).1).2 = 1 ∧
    countEff .decideNextMode
      (handleOptionClick strCfg false "b"
        (runClicks strCfg false ["a", "a", "a", "a"] strState).1).2 = 0 := by
  refine ⟨fun hsup heq => ?_, fun hsup hne => ?_, fun hsup hne hc => ?_,
    fun hsup hne hc => ?_, fun hsup => ?_, by decide, by decide, by decide, by decide⟩
  · simp [handleOptionClick, hq, hg, heq, hsup, countEff]
  · simp [handleOptionClick, hq, hg, hne, hsup, countEff]
  · simp [handleSubmit, hq, hne, hc, hsup, countEff]
  · simp [handleSubmit, hq, hne, hc, hsup, countEff]
  · by_cases ho : o = gco q rev <;>
      by_cases ht : jsTrim s.userAnswer = "" <;>
      by_cases hc : cfg.checkAnswer q (jsTrim s.userAnswer) rev <;>
      simp [handleOptionClick, handleSubmit, hq, hg, ho, ht, hc, hsup, countEff]

/-- C6 witness: one correct click on the concrete session emits exactly
one advance-mutator call and no reset-mutator call. -/
theorem C6_reverse_policy_calls_witness :
    countEff .decideNextMode (handleOptionClick strCfg false "a" strState).2 = 1 ∧
    countEff .resetReverseStreak (handleOptionClick strCfg false "a" strState).2 = 0 :=
  (C6_reverse_policy_calls strCfg false "a" strState "a" (fun q _ => q)
    rfl rfl).1 rfl rfl

/-- With an empty item pool the render function always picks the empty
display, whatever the rest of the state. -/
theorem view_of_empty_pool (cfg : Config T) (h : cfg.items.isEmpty = true)
    (s : GameState T) : view cfg s = View.emptyPool := by
  simp [view, h]

/-- Only the `startTimer` deferred callback can set the running flag. -/
theorem runDeferred_isRunning (cfg : Config T) (d : Deferred)
    (hd : d ≠ Deferred.startTimer) (s : GameState T) :
    (runDeferred cfg d s).isRunning = s.isRunning := by
  cases d with
  | advanceQuestion => rfl
  | clearFeedback => rfl
  | startTimer => exact absurd rfl hd
  | focusInput => rfl

/-- The time-expiry effect never touches the running flag. -/
theorem timeExpiryStep_isRunning (s : GameState T) :
    (timeExpiryStep s).1.isRunning = s.isRunning := by
  unfold timeExpiryStep
  split <;> rfl

/-- One step with an empty item pool keeps the timer stopped and keeps
the pending queue free of `startTimer` callbacks. -/
theorem step_empty_pool_inv (cfg : Config T) (rev : Bool) (ev : Event)
    (sys : Sys T) (hitems : cfg.items.isEmpty = true)
    (h1 : sys.state.isRunning = false)
    (h2 : Deferred.startTimer ∉ sys.pending) :
    (step cfg rev ev sys).1.state.isRunning = false ∧
    Deferred.startTimer ∉ (step cfg rev ev sys).1.pending := by
  have hview := view_of_empty_pool cfg hitems sys.state
  cases ev with
  | clickStart =>
      refine ⟨?_, ?_⟩ <;> simp [step, dispatch, hview, timeExpiryStep_isRunning, h1, h2]
  | clickCancel =>
      refine ⟨?_, ?_⟩ <;> simp [step, dispatch, hview, timeExpiryStep_isRunning, h1, h2]
  | clickOption o =>
      refine ⟨?_, ?_⟩ <;> simp [step, dispatch, hview, timeExpiryStep_isRunning, h1, h2]
  | submitAnswer =>
      refine ⟨?_, ?_⟩ <;> simp [step, dispatch, hview, timeExpiryStep_isRunning, h1, h2]
  | setAnswer a =>
      refine ⟨?_, ?_⟩ <;> simp [step, dispatch, hview, timeExpiryStep_isRunning, h1, h2]
  | chooseMode m =>
      refine ⟨?_, ?_⟩ <;> simp [step, dispatch, hview, timeExpiryStep_isRunning, h1, h2]
  | chooseDuration d =>
      refine ⟨?_, ?_⟩ <;> simp [step, dispatch, hview, timeExpiryStep_isRunning, h1, h2]
  | timerTick =>
      refine ⟨?_, ?_⟩ <;> simp [step, dispatch, hview, timeExpiryStep_isRunning, h1, h2]
  | fireTimeout i =>
      cases hpi : sys.pending[i]? with
      | none =>
          refine ⟨?_, ?_⟩ <;>
            simp [step, dispatch, hpi, timeExpiryStep_isRunning, h1, h2]
      | some d =>
          have hd : d ≠ Deferred.startTimer := by
            intro hcontra
            exact h2 (hcontra ▸ List.getElem?_mem hpi)
          constructor
          · simp [step, dispatch, hpi, timeExpiryStep_isRunning,
              runDeferred_isRunning cfg d hd, h1]
          · intro hmem
            simp only [step, dispatch, hpi] at hmem
            exact h2 (List.eraseIdx_subset sys.pending i hmem)

/-- Any event sequence with an empty item pool keeps the timer stopped
and the pending queue free of `startTimer` callbacks. -/
theorem runEvents_empty_pool_inv (cfg : Config T) (rev : Bool)
    (hitems : cfg.items.isEmpty = true) :
    ∀ (evs : List Event) (sys : Sys T),
      sys.state.isRunning = false → Deferred.startTimer ∉ sys.pending →
      (runEvents cfg rev evs sys).state.isRunning = false ∧
      Deferred.startTimer ∉ (runEvents cfg rev evs sys).pending := by
  intro evs
  induction evs with
  | nil => exact fun sys h1 h2 => ⟨h1, h2⟩
  | cons ev evs ih =>
      intro sys h1 h2
      have h := step_empty_pool_inv cfg rev ev sys hitems h1 h2
      exact ih _ h.1 h.2

/-- C8: with an empty item pool the component shows the distinct empty
display after every event sequence — never the pre-game, running or
finished views — and the timer can never be started. -/
theorem C8_empty_pool_terminal (cfg : Config T) (rev : Bool)
    (hitems : cfg.items.isEmpty = true) (sys : Sys T)
    (h1 : sys.state.isRunning = false)
    (h2 : Deferred.startTimer ∉ sys.pending) (evs : List Event) :
    view cfg (runEvents cfg rev evs sys).state = View.emptyPool ∧
    (runEvents cfg rev evs sys).state.isRunning = false := by
  have h := runEvents_empty_pool_inv cfg rev hitems evs sys h1 h2
  exact ⟨view_of_empty_pool cfg hitems _, h.1⟩

/-- C8 witness: with the concrete empty-pool configuration, a start
click, a timer tick, a timeout firing and a submit leave the component
in the empty display with the timer stopped. -/
theorem C8_empty_pool_terminal_witness :
    view emptyCfg (runEvents emptyCfg false
        [Event.clickStart, Event.timerTick, Event.fireTimeout 0, Event.submitAnswer]
        emptySys).state = View.emptyPool ∧
    (runEvents emptyCfg false
        [Event.clickStart, Event.timerTick, Event.fireTimeout 0, Event.submitAnswer]
        emptySys).state.isRunning = false :=
  C8_empty_pool_terminal emptyCfg false rfl emptySys rfl (by decide)
    [Event.clickStart, Event.timerTick, Event.fireTimeout 0, Event.submitAnswer]

end TimedChallenge
